import Mathlib

/-!
# Verification of the rxflow derivation pipeline

Shallow embedding of the three-stage derivation pipeline of the rxflow_ai
repository: snapshot aggregation (`src/aggregation/snapshot_engine.py`),
bundle metrics computation (`src/metrics/bundle_metrics_engine.py`) and
risk scoring (`src/risk/risk_scoring_engine.py`, `src/models/risk.py`).

Modelling conventions:
* Python floats are modelled by `ℚ` (all constants in the source are exact
  decimals, so rational arithmetic reproduces the comparisons exactly).
* Python datetimes and dates are modelled by `ℤ` day numbers; a timedelta's
  `.days` is then plain integer subtraction.
* Python truthiness tests (`if x:`) on optional fields are modelled
  faithfully: `None` and the empty string and the number zero are falsy,
  a present datetime is always truthy, `is not None` is `Option.isSome`.
* Wall-clock-dependent fields (generated identifiers, `datetime.now`
  timestamps, `days_in_current_stage`) and fire-and-forget audit/versioning
  side calls are not part of the returned values modelled here; none of the
  verified claims mention them.
-/

namespace RxFlow

/-! ## Python truthiness helpers -/

/-- Truthiness of an optional string: `None` and `""` are falsy. -/
def truthyS : Option String → Bool
  | none => false
  | some s => !s.isEmpty

/-- Truthiness of an optional integer: `None` and `0` are falsy. -/
def truthyZ : Option ℤ → Bool
  | none => false
  | some n => n != 0

/-- Truthiness of an optional natural: `None` and `0` are falsy. -/
def truthyN : Option ℕ → Bool
  | none => false
  | some n => n != 0

/-- Truthiness of an optional rational: `None` and `0` are falsy. -/
def truthyQ : Option ℚ → Bool
  | none => false
  | some q => q != 0

/-! ## Metric data model (`src/models/metrics.py`, fields used by the engines) -/

/-- Severity levels attached to computed metrics (`MetricSeverity`). -/
inductive MetricSeverity where
  | low
  | medium
  | high
  | critical
deriving DecidableEq, Repr

/-- The fields of `AgeInStageMetrics` read by the risk computations. -/
structure AgeInStageMetrics where
  current_stage : String
  days_in_current_stage : ℤ
  is_aging_in_stage : Bool
deriving DecidableEq, Repr

/-- `TimingOverlapMetrics` as produced by `_compute_timing_overlap_metrics`. -/
structure TimingOverlapMetrics where
  bundle_id : Option String
  bundle_size : ℕ
  refill_overlap_score : ℚ
  timing_variance_days : ℚ
  max_timing_gap_days : ℤ
  is_well_aligned : Bool
  alignment_efficiency : ℚ
  fragmentation_risk : ℚ
  shipment_split_probability : ℚ
deriving DecidableEq, Repr

/-- `RefillGapMetrics` as produced by `_compute_refill_gap_metrics`. -/
structure RefillGapMetrics where
  days_since_last_fill : ℤ
  days_until_next_due : ℤ
  refill_gap_days : ℤ
  is_optimal_gap : Bool
  gap_efficiency_score : ℚ
  abandonment_risk : ℚ
  urgency_score : ℚ
  days_supply_remaining : Option ℤ
  supply_buffer_days : Option ℤ
deriving DecidableEq, Repr

/-- The fields of `BundleAlignmentMetrics` read by `_compute_overall_risk`. -/
structure BundleAlignmentMetrics where
  bundle_id : Option String
  bundle_refill_count : ℕ
  bundle_alignment_score : ℚ
  split_risk_score : ℚ
  bundle_health_score : ℚ
deriving DecidableEq, Repr

/-- The snapshot fields read by the metrics engine
(`RefillSnapshot` projected to what `_compute_*_metrics` use). -/
structure MetricsSnapshotView where
  member_id : String := ""
  bundle_id : Option String := none
  refill_due_date : Option ℤ := none
  days_since_last_fill : Option ℤ := none
  days_until_due : Option ℤ := none
  days_supply : Option ℤ := none
  last_fill_date : Option ℤ := none
  bundle_alignment_score : Option ℚ := none
deriving DecidableEq, Repr

/-! ## Refill gap metrics (`BundleMetricsEngine._compute_refill_gap_metrics`) -/

/-- Embedding of `_compute_refill_gap_metrics`.  `now` stands for
`datetime.now(timezone.utc)` (as a day number), used only by the supply
calculations. -/
def computeRefillGapMetrics (snapshot : MetricsSnapshotView) (now : ℤ) :
    RefillGapMetrics :=
  let days_since_last_fill := snapshot.days_since_last_fill.getD 0
  let days_until_due := snapshot.days_until_due.getD 0
  let refill_gap := days_since_last_fill
  let optimal_gap : ℤ := 30
  let gap_efficiency : ℚ := max 0 (1 - (|refill_gap - optimal_gap| : ℚ) / (optimal_gap : ℚ))
  let is_optimal : Bool := |refill_gap - optimal_gap| ≤ 7
  let abandonment_risk : ℚ :=
    if 90 < days_since_last_fill then
      min 1 (((days_since_last_fill : ℚ) - 90) / 90)
    else if 60 < days_since_last_fill then
      min (1/2) (((days_since_last_fill : ℚ) - 60) / 60)
    else 0
  let urgency_score : ℚ :=
    if days_until_due < 0 then 1
    else if days_until_due < 7 then 8/10
    else if days_until_due < 14 then 1/2
    else if days_until_due < 30 then 2/10
    else 0
  let supply : Option ℤ × Option ℤ :=
    match snapshot.days_supply, snapshot.last_fill_date with
    | some ds, some lf =>
      if ds ≠ 0 then
        let days_consumed := now - lf
        let days_supply_remaining := max 0 (ds - days_consumed)
        (some days_supply_remaining, some (days_supply_remaining - days_until_due))
      else (none, none)
    | _, _ => (none, none)
  { days_since_last_fill := days_since_last_fill
    days_until_next_due := days_until_due
    refill_gap_days := refill_gap
    is_optimal_gap := is_optimal
    gap_efficiency_score := gap_efficiency
    abandonment_risk := abandonment_risk
    urgency_score := urgency_score
    days_supply_remaining := supply.1
    supply_buffer_days := supply.2 }

/-! ## Timing overlap metrics (`BundleMetricsEngine._compute_timing_overlap_metrics`) -/

/-- Bundle context assembled by `_get_bundle_context`. -/
structure BundleContext where
  bundle_size : ℕ
  bundle_member_count : ℕ
  bundle_refill_count : ℕ
  snapshots : List MetricsSnapshotView
deriving DecidableEq, Repr

/-- Embedding of `_get_bundle_context`. -/
def getBundleContext (snapshot : MetricsSnapshotView)
    (bundle_snapshots : Option (List MetricsSnapshotView)) : BundleContext :=
  if truthyS snapshot.bundle_id = false then
    { bundle_size := 1, bundle_member_count := 1, bundle_refill_count := 1,
      snapshots := [snapshot] }
  else
    let bs := bundle_snapshots.getD []
    { bundle_size := bs.length
      bundle_member_count := ((bs.map (fun s => s.member_id)).dedup).length
      bundle_refill_count := bs.length
      snapshots := bs }

/-- Gaps between consecutive due dates:
`abs((refill_due_dates[i+1] - refill_due_dates[i]).days)`. -/
def consecutiveGaps (dates : List ℤ) : List ℤ :=
  List.zipWith (fun a b => |b - a|) dates dates.tail

/-- Python `max(xs)` for a list defaulting to `0` when empty
(`max(timing_gaps) if timing_gaps else 0`). -/
def maxOfList (xs : List ℤ) : ℤ :=
  match xs with
  | [] => 0
  | x :: rest => rest.foldl max x

/-- Sample variance as computed by `statistics.variance`:
`Σ (x - mean)² / (n - 1)`.  (In `ℚ`, division by zero yields `0`, which
coincides with the engine's guarded value for a single gap.) -/
def sampleVariance (xs : List ℚ) : ℚ :=
  let n : ℚ := xs.length
  let m := xs.sum / n
  ((xs.map (fun x => (x - m)^2)).sum) / (n - 1)

/-- Embedding of `_compute_timing_overlap_metrics`. -/
def computeTimingOverlapMetrics (snapshot : MetricsSnapshotView)
    (bundle_context : BundleContext) : TimingOverlapMetrics :=
  let bundle_id := snapshot.bundle_id
  let bundle_size := bundle_context.bundle_size
  if bundle_size ≤ 1 then
    { bundle_id := bundle_id, bundle_size := bundle_size
      refill_overlap_score := 1, timing_variance_days := 0
      max_timing_gap_days := 0, is_well_aligned := true
      alignment_efficiency := 1, fragmentation_risk := 0
      shipment_split_probability := 0 }
  else
    let refill_due_dates := bundle_context.snapshots.filterMap (fun s => s.refill_due_date)
    if refill_due_dates.length < 2 then
      { bundle_id := bundle_id, bundle_size := bundle_size
        refill_overlap_score := 1/2, timing_variance_days := 30
        max_timing_gap_days := 30, is_well_aligned := false
        alignment_efficiency := 1/2, fragmentation_risk := 1/2
        shipment_split_probability := 1/2 }
    else
      let timing_gaps := consecutiveGaps refill_due_dates
      let timing_variance : ℚ :=
        if 1 < timing_gaps.length then sampleVariance (timing_gaps.map (fun g => (g : ℚ)))
        else 0
      let max_gap := maxOfList timing_gaps
      let overlap_score : ℚ := max 0 (1 - timing_variance / 900)
      let alignment_efficiency : ℚ := max 0 (1 - (max_gap : ℚ) / 30)
      let fragmentation_risk : ℚ := min 1 ((max_gap : ℚ) / 14)
      let shipment_split_probability := fragmentation_risk * (8/10)
      { bundle_id := bundle_id, bundle_size := bundle_size
        refill_overlap_score := overlap_score
        timing_variance_days := timing_variance
        max_timing_gap_days := max_gap
        is_well_aligned := decide ((8:ℚ)/10 < alignment_efficiency)
        alignment_efficiency := alignment_efficiency
        fragmentation_risk := fragmentation_risk
        shipment_split_probability := shipment_split_probability }

/-! ## Overall risk (`BundleMetricsEngine._compute_overall_risk`) -/

/-- The `_risk_score_thresholds` dictionary of the metrics engine. -/
structure RiskScoreThresholds where
  low : ℚ
  medium : ℚ
  high : ℚ
  critical : ℚ
deriving DecidableEq, Repr

/-- `_risk_score_thresholds` as initialized in `BundleMetricsEngine.__init__`. -/
def riskScoreThresholds : RiskScoreThresholds :=
  { low := 3/10, medium := 6/10, high := 8/10, critical := 9/10 }

/-- The severity cascade at the end of `_compute_overall_risk`
(lines 445-452 of `bundle_metrics_engine.py`): only the `critical`,
`high` and `medium` thresholds are consulted. -/
def metricSeverityOfScore (overall_risk : ℚ) : MetricSeverity :=
  if riskScoreThresholds.critical ≤ overall_risk then .critical
  else if riskScoreThresholds.high ≤ overall_risk then .high
  else if riskScoreThresholds.medium ≤ overall_risk then .medium
  else .low

/-- Embedding of `_compute_overall_risk`: the weighted risk-score list, the
clamped overall score, the severity and the risk-factor labels. -/
def computeOverallRisk (age_metrics : AgeInStageMetrics)
    (timing_metrics : TimingOverlapMetrics) (gap_metrics : RefillGapMetrics)
    (alignment_metrics : BundleAlignmentMetrics) :
    ℚ × MetricSeverity × List String :=
  let risk_scores : List ℚ :=
    (if age_metrics.is_aging_in_stage then
      [min 1 ((age_metrics.days_in_current_stage : ℚ) / 14) * (3/10)]
     else [])
    ++ [timing_metrics.fragmentation_risk * (4/10),
        gap_metrics.abandonment_risk * (3/10),
        alignment_metrics.split_risk_score * (2/10)]
  let risk_factors : List String :=
    (if age_metrics.is_aging_in_stage then
      ["Aging in " ++ age_metrics.current_stage ++ " stage"] else [])
    ++ (if (6:ℚ)/10 < timing_metrics.fragmentation_risk then
      ["Bundle fragmentation risk"] else [])
    ++ (if (1:ℚ)/2 < gap_metrics.abandonment_risk then
      ["Refill abandonment risk"] else [])
    ++ (if (7:ℚ)/10 < alignment_metrics.split_risk_score then
      ["Bundle split risk"] else [])
  let overall_risk := min 1 risk_scores.sum
  (overall_risk, metricSeverityOfScore overall_risk, risk_factors)

/-! ## Risk severity mapping (`BundleRiskScoringEngine._determine_risk_severity`) -/

/-- Four-level risk severity (`RiskSeverity` in `src/models/risk.py`). -/
inductive RiskSeverity where
  | low
  | medium
  | high
  | critical
deriving DecidableEq, Repr

/-- A threshold map with keys `low`, `medium`, `high`
(`break_risk_thresholds` / `abandonment_risk_thresholds`). -/
structure RiskThresholds where
  low : ℚ
  medium : ℚ
  high : ℚ
deriving DecidableEq, Repr

/-- Embedding of `_determine_risk_severity`: the configuration key named
`high` yields the `Critical` label. -/
def determineRiskSeverity (probability : ℚ) (thresholds : RiskThresholds) :
    RiskSeverity :=
  if thresholds.high ≤ probability then .critical
  else if thresholds.medium ≤ probability then .high
  else if thresholds.low ≤ probability then .medium
  else .low

/-! ## Risk model configuration validation (`RiskModelConfig`, `src/models/risk.py`) -/

/-- Embedding of the `validate_thresholds` validator: every value of the
threshold map must lie in `[0, 1]`. -/
def validateThresholdMap (v : List (String × ℚ)) : Bool :=
  v.all (fun kv => decide (0 ≤ kv.2 ∧ kv.2 ≤ 1))

/-- Embedding of the `validate_weights` validator: construction fails when
`abs(total_weight - 1.0) > 0.01`. -/
def validateDriverWeights (v : List (String × ℚ)) : Bool :=
  decide (|(v.map Prod.snd).sum - 1| ≤ 1/100)

/-- Construction of a `RiskModelConfig` succeeds exactly when all three
validators accept (pydantic raises if any validator raises). -/
def riskModelConfigAccepted (break_risk_thresholds : List (String × ℚ))
    (abandonment_risk_thresholds : List (String × ℚ))
    (driver_weights : List (String × ℚ)) : Bool :=
  validateThresholdMap break_risk_thresholds &&
    validateThresholdMap abandonment_risk_thresholds &&
    validateDriverWeights driver_weights

/-! ## Canonical events (`src/models/events.py`) -/

/-- Canonical event types (`EventType`). -/
inductive EventType where
  | refillInitiated
  | refillEligible
  | refillBundled
  | refillShipped
  | refillCancelled
  | refillCompleted
  | paSubmitted
  | paApproved
  | paDenied
  | paExpired
  | oosDetected
  | oosResolved
  | bundleFormed
  | bundleSplit
  | bundleShipped
deriving DecidableEq, Repr

/-- The four event classes over which `_process_events_for_snapshot`
dispatches with `isinstance` (`RefillEvent`, `PAEvent`, `OSEvent`,
`BundleEvent`). -/
inductive EventClass where
  | refillEvent
  | paEvent
  | oosEvent
  | bundleEvent
deriving DecidableEq, Repr

/-- A canonical event: the shared `BaseCanonicalEvent` fields plus the
variant payload fields the aggregation engine reads.  `cls` records which
of the four subclasses the event is an instance of; `event_type` is carried
independently, as in the source. -/
structure CanonicalEvent where
  event_id : String
  member_id : String
  refill_id : String
  bundle_id : Option String := none
  cls : EventClass
  event_type : EventType
  event_timestamp : ℤ
  correlation_id : Option String := none
  bundle_member_count : Option ℕ := none
  bundle_refill_count : Option ℕ := none
  bundle_sequence : Option ℕ := none
  drug_ndc : Option String := none
  drug_name : Option String := none
  days_supply : Option ℤ := none
  quantity : Option ℚ := none
  refill_due_date : Option ℤ := none
  ship_by_date : Option ℤ := none
  last_fill_date : Option ℤ := none
  refill_status : Option String := none
  source_status : Option String := none
  bundle_alignment_score : Option ℚ := none
  pa_type : Option String := none
  pa_processing_days : Option ℤ := none
  pa_expiry_date : Option ℤ := none
deriving DecidableEq, Repr

/-! ## Snapshot data model (`src/models/snapshots.py`) -/

/-- Lifecycle stages (`SnapshotStage`). -/
inductive SnapshotStage where
  | initiated
  | eligible
  | paPending
  | paApproved
  | paDenied
  | bundled
  | oosDetected
  | shipped
  | completed
  | cancelled
deriving DecidableEq, Repr

/-- Prior-authorization states (`PAState`). -/
inductive PAState where
  | notRequired
  | pending
  | approved
  | denied
  | expired
deriving DecidableEq, Repr

/-- Bundle timing states (`BundleTimingState`). -/
inductive BundleTimingState where
  | aligned
  | early
  | late
  | misaligned
  | unknown
deriving DecidableEq, Repr

/-- A refill snapshot: the fields `aggregate_events_to_snapshot` computes
deterministically from the event set.  Defaults are the initial values set
when the snapshot is constructed (stage `initiated`, PA `not_required`,
timing `unknown`, zero counters).  The generated `snapshot_id`, the
wall-clock `snapshot_timestamp` and the `now`-dependent derived day counts
are not modelled. -/
structure RefillSnapshot where
  member_id : String
  refill_id : String
  bundle_id : Option String := none
  current_stage : SnapshotStage := .initiated
  pa_state : PAState := .notRequired
  bundle_timing_state : BundleTimingState := .unknown
  total_events : ℕ := 0
  latest_event_timestamp : ℤ
  earliest_event_timestamp : ℤ
  event_ids : List String := []
  correlation_id : Option String := none
  refill_events : ℕ := 0
  pa_events : ℕ := 0
  oos_events : ℕ := 0
  bundle_events : ℕ := 0
  initiated_timestamp : Option ℤ := none
  eligible_timestamp : Option ℤ := none
  pa_submitted_timestamp : Option ℤ := none
  pa_resolved_timestamp : Option ℤ := none
  bundled_timestamp : Option ℤ := none
  oos_detected_timestamp : Option ℤ := none
  oos_resolved_timestamp : Option ℤ := none
  shipped_timestamp : Option ℤ := none
  completed_timestamp : Option ℤ := none
  drug_ndc : Option String := none
  drug_name : Option String := none
  days_supply : Option ℤ := none
  quantity : Option ℚ := none
  refill_due_date : Option ℤ := none
  ship_by_date : Option ℤ := none
  last_fill_date : Option ℤ := none
  refill_status : Option String := none
  source_status : Option String := none
  bundle_alignment_score : Option ℚ := none
  pa_type : Option String := none
  pa_processing_days : Option ℤ := none
  pa_expiry_date : Option ℤ := none
  bundle_member_count : Option ℕ := none
  bundle_refill_count : Option ℕ := none
  bundle_sequence : Option ℕ := none
deriving DecidableEq, Repr

/-! ## Event folding (`SnapshotAggregationEngine._process_*`) -/

/-- Embedding of `_process_refill_event`: each guarded Python assignment
`if event.f: snapshot.f = event.f` is rendered as the equivalent field-wise
conditional `f := if truthy event.f then event.f else s.f`. -/
def processRefillEvent (event : CanonicalEvent) (snapshot : RefillSnapshot) :
    RefillSnapshot :=
  let s := { snapshot with
    drug_ndc := if truthyS event.drug_ndc then event.drug_ndc else snapshot.drug_ndc
    drug_name := if truthyS event.drug_name then event.drug_name else snapshot.drug_name
    days_supply := if truthyZ event.days_supply then event.days_supply else snapshot.days_supply
    quantity := if truthyQ event.quantity then event.quantity else snapshot.quantity
    refill_due_date := if event.refill_due_date.isSome then event.refill_due_date else snapshot.refill_due_date
    ship_by_date := if event.ship_by_date.isSome then event.ship_by_date else snapshot.ship_by_date
    last_fill_date := if event.last_fill_date.isSome then event.last_fill_date else snapshot.last_fill_date
    refill_status := if truthyS event.refill_status then event.refill_status else snapshot.refill_status
    source_status := if truthyS event.source_status then event.source_status else snapshot.source_status
    bundle_alignment_score := if event.bundle_alignment_score.isSome then
      event.bundle_alignment_score else snapshot.bundle_alignment_score }
  match event.event_type with
  | .refillInitiated => { s with initiated_timestamp := some event.event_timestamp }
  | .refillEligible => { s with eligible_timestamp := some event.event_timestamp }
  | .refillBundled => { s with bundled_timestamp := some event.event_timestamp }
  | .refillShipped => { s with shipped_timestamp := some event.event_timestamp }
  | .refillCompleted => { s with completed_timestamp := some event.event_timestamp }
  | _ => s

/-- Embedding of `_process_pa_event` (note: `pa_type` is assigned
unconditionally in the source). -/
def processPaEvent (event : CanonicalEvent) (snapshot : RefillSnapshot) :
    RefillSnapshot :=
  let s := { snapshot with
    pa_type := event.pa_type
    pa_processing_days := if truthyZ event.pa_processing_days then
      event.pa_processing_days else snapshot.pa_processing_days
    pa_expiry_date := if event.pa_expiry_date.isSome then
      event.pa_expiry_date else snapshot.pa_expiry_date }
  match event.event_type with
  | .paSubmitted => { s with pa_submitted_timestamp := some event.event_timestamp }
  | .paApproved => { s with pa_resolved_timestamp := some event.event_timestamp }
  | .paDenied => { s with pa_resolved_timestamp := some event.event_timestamp }
  | .paExpired => { s with pa_resolved_timestamp := some event.event_timestamp }
  | _ => s

/-- Embedding of `_process_oos_event`. -/
def processOosEvent (event : CanonicalEvent) (snapshot : RefillSnapshot) :
    RefillSnapshot :=
  match event.event_type with
  | .oosDetected => { snapshot with oos_detected_timestamp := some event.event_timestamp }
  | .oosResolved => { snapshot with oos_resolved_timestamp := some event.event_timestamp }
  | _ => snapshot

/-- Embedding of `_process_bundle_event`. -/
def processBundleEvent (event : CanonicalEvent) (snapshot : RefillSnapshot) :
    RefillSnapshot :=
  let s := { snapshot with
    bundle_member_count := if truthyN event.bundle_member_count then
      event.bundle_member_count else snapshot.bundle_member_count
    bundle_refill_count := if truthyN event.bundle_refill_count then
      event.bundle_refill_count else snapshot.bundle_refill_count
    bundle_sequence := if truthyN event.bundle_sequence then
      event.bundle_sequence else snapshot.bundle_sequence }
  match event.event_type with
  | .bundleFormed => { s with bundled_timestamp := some event.event_timestamp }
  | .bundleShipped => { s with shipped_timestamp := some event.event_timestamp }
  | _ => s

/-- One step of the loop in `_process_events_for_snapshot`: count the event
in its category, run the class-specific processor, then update the bundle
context from any event. -/
def processEventStep (snapshot : RefillSnapshot) (event : CanonicalEvent) :
    RefillSnapshot :=
  let s :=
    match event.cls with
    | .refillEvent => processRefillEvent event { snapshot with refill_events := snapshot.refill_events + 1 }
    | .paEvent => processPaEvent event { snapshot with pa_events := snapshot.pa_events + 1 }
    | .oosEvent => processOosEvent event { snapshot with oos_events := snapshot.oos_events + 1 }
    | .bundleEvent => processBundleEvent event { snapshot with bundle_events := snapshot.bundle_events + 1 }
  { s with
    bundle_member_count := if truthyN event.bundle_member_count then
      event.bundle_member_count else s.bundle_member_count
    bundle_refill_count := if truthyN event.bundle_refill_count then
      event.bundle_refill_count else s.bundle_refill_count
    bundle_sequence := if truthyN event.bundle_sequence then
      event.bundle_sequence else s.bundle_sequence }

/-! ## Stage determination (`SnapshotAggregationEngine._determine_current_state`) -/

/-- Scan a list of characters for the substring `pa_`. -/
def paScan : List Char → Bool
  | 'p' :: 'a' :: '_' :: _ => true
  | _ :: rest => paScan rest
  | [] => false

/-- Python `"pa_" in e.lower()`: lowercase the identifier and look for the
substring `pa_`. -/
def hasPaMark (s : String) : Bool :=
  paScan (s.data.map Char.toLower)

/-- The stage cascade of `_determine_current_state` (first match wins; when
no branch assigns, the stage keeps its previous value, which after
aggregation is the constructor default `initiated`). -/
def determineStage (s : RefillSnapshot) : SnapshotStage :=
  if s.completed_timestamp.isSome then .completed
  else if s.shipped_timestamp.isSome then .shipped
  else if s.oos_detected_timestamp.isSome && s.oos_resolved_timestamp.isNone then .oosDetected
  else if s.bundled_timestamp.isSome then .bundled
  else if s.pa_resolved_timestamp.isSome then
    -- nested guard of the source: stage is assigned only when a
    -- pa_submitted milestone exists AND some event identifier contains
    -- the substring "pa_" (case-insensitively); otherwise the stage is
    -- left unchanged and the remaining elif branches are skipped
    (if s.pa_resolved_timestamp.isSome && s.pa_submitted_timestamp.isSome then
      (if (s.event_ids.filter (fun e => hasPaMark e)) ≠ [] then .paApproved
       else s.current_stage)
     else s.current_stage)
  else if s.pa_submitted_timestamp.isSome then .paPending
  else if s.eligible_timestamp.isSome then .eligible
  else if s.initiated_timestamp.isSome then .initiated
  else s.current_stage

/-- The PA-state derivation of `_determine_current_state`. -/
def determinePaState (s : RefillSnapshot) : PAState :=
  if s.pa_events = 0 then .notRequired
  else if s.pa_submitted_timestamp.isSome && s.pa_resolved_timestamp.isNone then .pending
  else if s.pa_resolved_timestamp.isSome then .approved
  else s.pa_state

/-- The bundle-timing-state derivation of `_determine_current_state`. -/
def determineBundleTimingState (s : RefillSnapshot) : BundleTimingState :=
  match s.bundle_alignment_score with
  | some score =>
    if (8:ℚ)/10 ≤ score then .aligned
    else if (6:ℚ)/10 ≤ score then .early
    else if (4:ℚ)/10 ≤ score then .late
    else .misaligned
  | none => .unknown

/-- Embedding of `_determine_current_state` (the `days_in_current_stage`
assignment depends on `datetime.now` and is not modelled). -/
def determineCurrentState (s : RefillSnapshot) : RefillSnapshot :=
  { s with
    current_stage := determineStage s
    pa_state := determinePaState s
    bundle_timing_state := determineBundleTimingState s }

/-! ## Aggregation (`SnapshotAggregationEngine.aggregate_events_to_snapshot`) -/

/-- The sort key comparison: `sorted(events, key=lambda e: e.event_timestamp)`. -/
def eventLe (a b : CanonicalEvent) : Prop :=
  a.event_timestamp ≤ b.event_timestamp

instance : DecidableRel eventLe :=
  fun a b => inferInstanceAs (Decidable (a.event_timestamp ≤ b.event_timestamp))

/-- Python's `sorted` is a stable sort; `List.insertionSort` is the stable
sort used to model it. -/
def sortEvents (events : List CanonicalEvent) : List CanonicalEvent :=
  events.insertionSort eventLe

/-- Aggregation over an already-sorted event list: base snapshot from the
first/last sorted events, fold of `_process_events_for_snapshot`, then
`_determine_current_state`. -/
def aggregateSorted (sorted_events : List CanonicalEvent) :
    Except String RefillSnapshot :=
  match sorted_events with
  | [] => .error "Cannot create snapshot from empty event list"
  | first :: rest =>
    let sorted := first :: rest
    let snapshot0 : RefillSnapshot :=
      { member_id := first.member_id
        refill_id := first.refill_id
        bundle_id := first.bundle_id
        total_events := sorted.length
        latest_event_timestamp := (sorted.getLast (List.cons_ne_nil first rest)).event_timestamp
        earliest_event_timestamp := first.event_timestamp
        event_ids := sorted.map (fun e => e.event_id)
        correlation_id := first.correlation_id }
    .ok (determineCurrentState (sorted.foldl processEventStep snapshot0))

/-- Embedding of `aggregate_events_to_snapshot`: raise on an empty event
list, otherwise sort by timestamp (stably) and fold. -/
def aggregateEventsToSnapshot (events : List CanonicalEvent) :
    Except String RefillSnapshot :=
  aggregateSorted (sortEvents events)

/-! ## Snapshot update (`SnapshotAggregationEngine.update_snapshot_with_event`) -/

/-- The engine's in-memory snapshot cache (`_snapshot_cache`), keyed by
snapshot identifier. -/
structure EngineState where
  cache : List (String × RefillSnapshot)
deriving DecidableEq, Repr

/-- Embedding of `_get_events_by_ids`: the source is an explicit placeholder
that always returns the empty list ("would integrate with event storage"). -/
def getEventsByIds (event_ids : List String) : List CanonicalEvent :=
  []

/-- Embedding of `update_snapshot_with_event`.  Returns the optional updated
snapshot and the resulting engine state; `Except.error` models an uncaught
Python exception.  The audit-logger call in the mismatch branch is a side
effect only and is not part of the returned value. -/
def updateSnapshotWithEvent (st : EngineState) (snapshot_id : String)
    (new_event : CanonicalEvent) :
    Except String (Option RefillSnapshot × EngineState) :=
  match st.cache.lookup snapshot_id with
  | none => .ok (none, st)
  | some snapshot =>
    if new_event.member_id ≠ snapshot.member_id ∨
        new_event.refill_id ≠ snapshot.refill_id then
      .ok (none, st)
    else
      let snapshot1 := { snapshot with
        event_ids := snapshot.event_ids ++ [new_event.event_id]
        total_events := snapshot.total_events + 1
        latest_event_timestamp :=
          max snapshot.latest_event_timestamp new_event.event_timestamp }
      let all_events := getEventsByIds snapshot1.event_ids
      match aggregateEventsToSnapshot all_events with
      | .error e => .error e
      | .ok updated =>
        .ok (some updated,
          ⟨st.cache.map (fun kv => if kv.1 = snapshot_id then (kv.1, updated) else kv)⟩)

/-! ## Batch risk assessment (`BundleRiskScoringEngine.assess_batch_risks`) -/

/-- The fields of a `BundleMetrics` record that drive the batch grouping:
the refill identifier embedded in the produced abandonment assessment and
the bundle identifier (`metrics.bundle_alignment.bundle_id`). -/
structure MetricKey where
  refill_id : String
  bundle_id : Option String := none
deriving DecidableEq, Repr

/-- The grouping key: `if bundle_id:` — `None` and the empty string are
falsy, so such metrics are not grouped. -/
def truthyBundle (m : MetricKey) : Option String :=
  match m.bundle_id with
  | none => none
  | some s => if s.isEmpty then none else some s

/-- A produced risk assessment, reduced to the identifiers the claims are
about: a bundle-break assessment carries the bundle identifier and the
refill identifier of the representative (first) metric; an abandonment
assessment carries the metric's refill identifier. -/
inductive RiskAssessmentKind where
  | bundleBreak (bundle_id : String) (representative_refill_id : String)
  | abandonment (refill_id : String)
deriving DecidableEq, Repr

/-- Insertion-ordered key set of a Python `defaultdict`: a key is appended
on its first occurrence. -/
def insertKey (ks : List String) (k : String) : List String :=
  if k ∈ ks then ks else ks ++ [k]

/-- The keys of `bundle_groups` in iteration (insertion) order. -/
def bundleKeys (metrics_list : List MetricKey) : List String :=
  metrics_list.foldl
    (fun ks m =>
      match truthyBundle m with
      | some b => insertKey ks b
      | none => ks)
    []

/-- The group collected under key `b`, in input order. -/
def bundleGroup (metrics_list : List MetricKey) (b : String) : List MetricKey :=
  metrics_list.filter (fun m => decide (truthyBundle m = some b))

/-- Embedding of `assess_batch_risks`: ungrouped metrics receive one
abandonment assessment each (first loop, in input order); each group with
more than one member then receives one bundle-break assessment computed
from its first metric followed by one abandonment assessment per member;
groups of size one produce nothing. -/
def assessBatchRisks (metrics_list : List MetricKey) : List RiskAssessmentKind :=
  (metrics_list.filter (fun m => (truthyBundle m).isNone)).map
    (fun m => RiskAssessmentKind.abandonment m.refill_id)
  ++ (bundleKeys metrics_list).flatMap (fun b =>
      let g := bundleGroup metrics_list b
      if 1 < g.length then
        RiskAssessmentKind.bundleBreak b (((g.head?).map (fun m => m.refill_id)).getD "")
          :: g.map (fun m => RiskAssessmentKind.abandonment m.refill_id)
      else [])

/-- Recognizer for a bundle-break assessment of bundle `b`. -/
def isBreakFor (b : String) : RiskAssessmentKind → Bool
  | .bundleBreak b' _ => b' == b
  | .abandonment _ => false

/-- Recognizer for an abandonment assessment of refill `i`. -/
def isAbandonmentFor (i : String) : RiskAssessmentKind → Bool
  | .bundleBreak _ _ => false
  | .abandonment i' => i' == i

/-! ## Auxiliary notions used by the claim statements -/

/-- Strict comparison on event timestamps (used to reason about the
determinism of the stable sort). -/
def eventLt (a b : CanonicalEvent) : Prop :=
  a.event_timestamp < b.event_timestamp

/-- The due dates available among the bundle-context snapshots. -/
def dueDatesOf (ctx : BundleContext) : List ℤ :=
  ctx.snapshots.filterMap (fun s => s.refill_due_date)

/-- No milestone from the first four cascade branches is active: no
completed or shipped or bundled milestone, and no unresolved OOS
detection. -/
abbrev noLateMilestone (s : RefillSnapshot) : Prop :=
  s.completed_timestamp = none ∧ s.shipped_timestamp = none ∧
    (s.oos_detected_timestamp = none ∨ s.oos_resolved_timestamp.isSome) ∧
    s.bundled_timestamp = none

/-! ## Concrete inputs used to settle individual claims -/

/-- Age metrics of a snapshot that is not aging (for the C2 counterexample). -/
def c2AgeInput : AgeInStageMetrics :=
  { current_stage := "eligible", days_in_current_stage := 0, is_aging_in_stage := false }

/-- Timing metrics with fragmentation risk 1 (for the C2 counterexample). -/
def c2TimingInput : TimingOverlapMetrics :=
  { bundle_id := none, bundle_size := 2, refill_overlap_score := 0
    timing_variance_days := 900, max_timing_gap_days := 30
    is_well_aligned := false, alignment_efficiency := 0
    fragmentation_risk := 1, shipment_split_probability := 4/5 }

/-- Gap metrics with abandonment risk 0 (for the C2 counterexample). -/
def c2GapInput : RefillGapMetrics :=
  { days_since_last_fill := 0, days_until_next_due := 60, refill_gap_days := 0
    is_optimal_gap := false, gap_efficiency_score := 0, abandonment_risk := 0
    urgency_score := 0, days_supply_remaining := none, supply_buffer_days := none }

/-- Alignment metrics with split risk 0 (for the C2 counterexample). -/
def c2AlignmentInput : BundleAlignmentMetrics :=
  { bundle_id := none, bundle_refill_count := 1, bundle_alignment_score := 1
    split_risk_score := 0, bundle_health_score := 2/3 }

/-- A refill-eligible event (for the C3 counterexample). -/
def c3EligibleEvent : CanonicalEvent :=
  { event_id := "evt00000001", member_id := "MEMBER01", refill_id := "REFILL01"
    cls := .refillEvent, event_type := .refillEligible, event_timestamp := 100 }

/-- A PA-approved event with no preceding PA submission (for the C3
counterexample).  Its timestamp becomes the pa-resolved milestone. -/
def c3PaApprovedEvent : CanonicalEvent :=
  { event_id := "evt00000002", member_id := "MEMBER01", refill_id := "REFILL01"
    cls := .paEvent, event_type := .paApproved, event_timestamp := 200 }

/-- A refill-initiated event (used to instantiate the amended C3 cascade). -/
def c3InitiatedEvent : CanonicalEvent :=
  { event_id := "evt00000003", member_id := "MEMBER02", refill_id := "REFILL02"
    cls := .refillEvent, event_type := .refillInitiated, event_timestamp := 50 }

/-- The snapshot `aggregate` produces from `[c3InitiatedEvent]`. -/
def c3InitiatedSnapshot : RefillSnapshot :=
  { member_id := "MEMBER02", refill_id := "REFILL02", total_events := 1
    latest_event_timestamp := 50, earliest_event_timestamp := 50
    event_ids := ["evt00000003"], refill_events := 1
    initiated_timestamp := some 50 }

/-- A cached snapshot (for the C4 claim). -/
def c4CachedSnapshot : RefillSnapshot :=
  { member_id := "MEMBER01", refill_id := "REFILL01", total_events := 1
    latest_event_timestamp := 5, earliest_event_timestamp := 1
    event_ids := ["evt00000001"] }

/-- An engine state caching one snapshot under "snapshot0001" (for C4). -/
def c4State : EngineState :=
  { cache := [("snapshot0001", c4CachedSnapshot)] }

/-- An event whose member matches the cached snapshot (for C4). -/
def c4MatchEvent : CanonicalEvent :=
  { event_id := "evt00000002", member_id := "MEMBER01", refill_id := "REFILL01"
    cls := .refillEvent, event_type := .refillShipped, event_timestamp := 7 }

/-- An event whose member does not match the cached snapshot (for C4). -/
def c4MismatchEvent : CanonicalEvent :=
  { event_id := "evt00000003", member_id := "MEMBER99", refill_id := "REFILL01"
    cls := .refillEvent, event_type := .refillShipped, event_timestamp := 7 }

/-- A bundle context with three sibling due dates (for the C6 witness). -/
def c6Context : BundleContext :=
  { bundle_size := 3, bundle_member_count := 3, bundle_refill_count := 3
    snapshots :=
      [{ refill_due_date := some 0 }, { refill_due_date := some 10 },
       { refill_due_date := some 30 }] }

/-- First event for the C8 witness. -/
def c8EventA : CanonicalEvent :=
  { event_id := "evt00000010", member_id := "MEMBER01", refill_id := "REFILL01"
    cls := .refillEvent, event_type := .refillInitiated, event_timestamp := 10 }

/-- Second event for the C8 witness. -/
def c8EventB : CanonicalEvent :=
  { event_id := "evt00000011", member_id := "MEMBER01", refill_id := "REFILL01"
    cls := .refillEvent, event_type := .refillEligible, event_timestamp := 20 }

/-- Batch metrics for the C10 witness: one unbundled metric, a two-member
bundle and a single-member bundle. -/
def c10Metrics : List MetricKey :=
  [{ refill_id := "REFILL01" },
   { refill_id := "REFILL02", bundle_id := some "BUNDLE01" },
   { refill_id := "REFILL03", bundle_id := some "BUNDLE01" },
   { refill_id := "REFILL04", bundle_id := some "BUNDLE02" }]

/-! ## Theorems -/

/-- Claim C1: for every probability and threshold map (with its cut-points
in order), the risk severity mapping returns Critical from the `high`
threshold upward, High on `[medium, high)`, Medium on `[low, medium)` and
Low below `low`; with thresholds `{low := 0.3, medium := 0.6, high := 0.8}`
a probability of `0.85` maps to Critical, not High. -/
theorem c1_severity_mapping (p : ℚ) (th : RiskThresholds)
    (h1 : th.low ≤ th.medium) (h2 : th.medium ≤ th.high) :
    (th.high ≤ p → determineRiskSeverity p th = .critical) ∧
    (th.medium ≤ p ∧ p < th.high → determineRiskSeverity p th = .high) ∧
    (th.low ≤ p ∧ p < th.medium → determineRiskSeverity p th = .medium) ∧
    (p < th.low → determineRiskSeverity p th = .low) ∧
    determineRiskSeverity (85/100) { low := 3/10, medium := 6/10, high := 8/10 } =
      .critical ∧
    determineRiskSeverity (85/100) { low := 3/10, medium := 6/10, high := 8/10 } ≠
      .high := by
  unfold determineRiskSeverity
  refine ⟨fun h => if_pos h, fun h => ?_, fun h => ?_, fun h => ?_, ?_, ?_⟩
  · rw [if_neg (not_le.mpr h.2), if_pos h.1]
  · rw [if_neg (not_le.mpr (lt_of_lt_of_le h.2 h2)), if_neg (not_le.mpr h.2), if_pos h.1]
  · rw [if_neg (not_le.mpr (lt_of_lt_of_le (lt_of_lt_of_le h h1) h2)),
      if_neg (not_le.mpr (lt_of_lt_of_le h h1)), if_neg (not_le.mpr h)]
  · rw [if_pos (by norm_num : (8:ℚ)/10 ≤ 85/100)]
  · rw [if_pos (by norm_num : (8:ℚ)/10 ≤ 85/100)]
    decide

/-- Witness for C1 at probability 0.85 and thresholds {0.3, 0.6, 0.8}. -/
theorem c1_severity_mapping_witness :
    determineRiskSeverity (85/100) { low := 3/10, medium := 6/10, high := 8/10 } =
      RiskSeverity.critical :=
  (c1_severity_mapping (85/100) { low := 3/10, medium := 6/10, high := 8/10 }
    (by norm_num) (by norm_num)).1 (by norm_num)

/-- Claim C2 (amended): the metrics engine's severity cascade consults only
the `critical` (0.9), `high` (0.8) and `medium` (0.6) thresholds: Low below
0.6, Medium on `[0.6, 0.8)`, High on `[0.8, 0.9)`, Critical from 0.9; the
configured `low` threshold (0.3) is never used. -/
theorem c2_metric_severity_buckets (r : ℚ) (h0 : 0 ≤ r) (h1 : r ≤ 1) :
    (r < 6/10 → metricSeverityOfScore r = .low) ∧
    (6/10 ≤ r ∧ r < 8/10 → metricSeverityOfScore r = .medium) ∧
    (8/10 ≤ r ∧ r < 9/10 → metricSeverityOfScore r = .high) ∧
    (9/10 ≤ r → metricSeverityOfScore r = .critical) := by
  unfold metricSeverityOfScore riskScoreThresholds
  refine ⟨fun h => ?_, fun h => ?_, fun h => ?_, fun h => ?_⟩
  · rw [if_neg (by intro hc; norm_num at hc; linarith),
      if_neg (by intro hc; norm_num at hc; linarith),
      if_neg (by intro hc; norm_num at hc; linarith)]
  · rw [if_neg (by intro hc; norm_num at hc; linarith [h.2]),
      if_neg (by intro hc; norm_num at hc; linarith [h.2]),
      if_pos (by norm_num; linarith [h.1])]
  · rw [if_neg (by intro hc; norm_num at hc; linarith [h.2]),
      if_pos (by norm_num; linarith [h.1])]
  · rw [if_pos (by norm_num; linarith)]

/-- Witness for C2 at an overall risk of 0.7, which maps to Medium. -/
theorem c2_metric_severity_buckets_witness :
    metricSeverityOfScore (7/10) = MetricSeverity.medium :=
  (c2_metric_severity_buckets (7/10) (by norm_num) (by norm_num)).2.1
    ⟨by norm_num, by norm_num⟩

/-- Counterexample to C2 as stated: the metrics engine produces the overall
risk score 0.4 (inside the claimed Medium bucket `[0.3, 0.6)`) with
severity Low, because the cascade never consults the `low` threshold. -/
theorem c2_severity_counterexample :
    (computeOverallRisk c2AgeInput c2TimingInput c2GapInput c2AlignmentInput).1 =
      2/5 ∧
    (computeOverallRisk c2AgeInput c2TimingInput c2GapInput c2AlignmentInput).2.1 =
      MetricSeverity.low ∧
    ((3:ℚ)/10 ≤ 2/5 ∧ (2:ℚ)/5 < 6/10) ∧
    MetricSeverity.low ≠ MetricSeverity.medium := by
  refine ⟨?_, ?_, by norm_num, by decide⟩
  · norm_num [computeOverallRisk, c2AgeInput, c2TimingInput, c2GapInput,
      c2AlignmentInput]
  · norm_num [computeOverallRisk, c2AgeInput, c2TimingInput, c2GapInput,
      c2AlignmentInput, metricSeverityOfScore, riskScoreThresholds]

/-- Claim C5: the abandonment risk is 0 up to 60 days since last fill,
`min(0.5, (d-60)/60)` on `(60, 90]`, and `min(1, (d-90)/90)` above 90 days
(the `> 90` branch has precedence); in particular 200 days yield 1 and 70
days yield `min(0.5, 10/60) = 1/6` (0.1667). -/
theorem c5_abandonment_risk (snapshot : MetricsSnapshotView) (now : ℤ) :
    (snapshot.days_since_last_fill.getD 0 ≤ 60 →
      (computeRefillGapMetrics snapshot now).abandonment_risk = 0) ∧
    (60 < snapshot.days_since_last_fill.getD 0 →
      snapshot.days_since_last_fill.getD 0 ≤ 90 →
      (computeRefillGapMetrics snapshot now).abandonment_risk =
        min (1/2) (((snapshot.days_since_last_fill.getD 0 : ℚ) - 60) / 60)) ∧
    (90 < snapshot.days_since_last_fill.getD 0 →
      (computeRefillGapMetrics snapshot now).abandonment_risk =
        min 1 (((snapshot.days_since_last_fill.getD 0 : ℚ) - 90) / 90)) ∧
    (computeRefillGapMetrics { days_since_last_fill := some 200 } 0).abandonment_risk
      = 1 ∧
    (computeRefillGapMetrics { days_since_last_fill := some 70 } 0).abandonment_risk
      = 1/6 := by
  have e : ∀ (snap : MetricsSnapshotView) (n : ℤ),
      (computeRefillGapMetrics snap n).abandonment_risk =
        (if 90 < snap.days_since_last_fill.getD 0 then
          min 1 (((snap.days_since_last_fill.getD 0 : ℚ) - 90) / 90)
        else if 60 < snap.days_since_last_fill.getD 0 then
          min (1/2) (((snap.days_since_last_fill.getD 0 : ℚ) - 60) / 60)
        else 0) := fun snap n => rfl
  refine ⟨fun h => ?_, fun h1 h2 => ?_, fun h => ?_, ?_, ?_⟩
  · rw [e, if_neg (by omega), if_neg (by omega)]
  · rw [e, if_neg (by omega), if_pos h1]
  · rw [e, if_pos h]
  · norm_num [computeRefillGapMetrics]
  · norm_num [computeRefillGapMetrics]

/-- Claim C7: a bundle of size at most 1 gets the perfect timing scores:
overlap 1, variance 0, max gap 0, fragmentation 0, split probability 0. -/
theorem c7_single_refill_timing (snapshot : MetricsSnapshotView)
    (ctx : BundleContext) (h : ctx.bundle_size ≤ 1) :
    (computeTimingOverlapMetrics snapshot ctx).refill_overlap_score = 1 ∧
    (computeTimingOverlapMetrics snapshot ctx).timing_variance_days = 0 ∧
    (computeTimingOverlapMetrics snapshot ctx).max_timing_gap_days = 0 ∧
    (computeTimingOverlapMetrics snapshot ctx).fragmentation_risk = 0 ∧
    (computeTimingOverlapMetrics snapshot ctx).shipment_split_probability = 0 := by
  have e : computeTimingOverlapMetrics snapshot ctx =
      { bundle_id := snapshot.bundle_id, bundle_size := ctx.bundle_size
        refill_overlap_score := 1, timing_variance_days := 0
        max_timing_gap_days := 0, is_well_aligned := true
        alignment_efficiency := 1, fragmentation_risk := 0
        shipment_split_probability := 0 } := by
    simp only [computeTimingOverlapMetrics]
    rw [if_pos h]
  rw [e]
  exact ⟨rfl, rfl, rfl, rfl, rfl⟩

/-- Witness for C7 on an empty single-refill bundle context. -/
theorem c7_single_refill_timing_witness :
    (computeTimingOverlapMetrics {}
      { bundle_size := 1, bundle_member_count := 1, bundle_refill_count := 1,
        snapshots := [] }).refill_overlap_score = 1 ∧
    (computeTimingOverlapMetrics {}
      { bundle_size := 1, bundle_member_count := 1, bundle_refill_count := 1,
        snapshots := [] }).fragmentation_risk = 0 :=
  ⟨(c7_single_refill_timing {} _ (by norm_num)).1,
   (c7_single_refill_timing {} _ (by norm_num)).2.2.2.1⟩

/-- Claim C9: construction of a `RiskModelConfig` is rejected exactly when
the driver weights do not sum to 1 within 0.01 or some break/abandonment
threshold value lies outside `[0, 1]`. -/
theorem c9_config_validation (tb ta w : List (String × ℚ)) :
    riskModelConfigAccepted tb ta w = false ↔
      (1/100 < |(w.map Prod.snd).sum - 1| ∨
        ∃ kv ∈ tb ++ ta, kv.2 < 0 ∨ 1 < kv.2) := by
  have hpos : riskModelConfigAccepted tb ta w = true ↔
      ((∀ kv ∈ tb, 0 ≤ kv.2 ∧ kv.2 ≤ 1) ∧ (∀ kv ∈ ta, 0 ≤ kv.2 ∧ kv.2 ≤ 1) ∧
        |(w.map Prod.snd).sum - 1| ≤ 1/100) := by
    simp [riskModelConfigAccepted, validateThresholdMap, validateDriverWeights,
      List.all_eq_true, and_assoc]
  constructor
  · intro h
    by_contra hc
    push_neg at hc
    obtain ⟨hw, hex⟩ := hc
    have ht : ∀ kv ∈ tb ++ ta, 0 ≤ kv.2 ∧ kv.2 ≤ 1 := hex
    have := hpos.mpr
      ⟨fun kv hkv => ht kv (List.mem_append_left _ hkv),
       fun kv hkv => ht kv (List.mem_append_right _ hkv), hw⟩
    rw [h] at this
    exact Bool.false_ne_true this
  · intro h
    rcases Bool.eq_false_or_eq_true (riskModelConfigAccepted tb ta w) with ht | hf
    · exfalso
      obtain ⟨h1, h2, h3⟩ := hpos.mp ht
      rcases h with hw | ⟨kv, hmem, hv⟩
      · exact absurd h3 (not_le.mpr hw)
      · have hb : 0 ≤ kv.2 ∧ kv.2 ≤ 1 := by
          rcases List.mem_append.mp hmem with hm | hm
          · exact h1 kv hm
          · exact h2 kv hm
        rcases hv with a | a
        · exact absurd hb.1 (not_le.mpr a)
        · exact absurd hb.2 (not_le.mpr a)
    · exact hf

/-- The sample variance of a single observation evaluates to zero (matching
the engine's guarded value for a single timing gap). -/
theorem sampleVariance_singleton (x : ℚ) : sampleVariance [x] = 0 := by
  simp [sampleVariance]

/-- There is one consecutive gap fewer than there are due dates. -/
theorem consecutiveGaps_length (dates : List ℤ) :
    (consecutiveGaps dates).length = dates.length - 1 := by
  simp [consecutiveGaps]

/-- Claim C6: for a bundle of size at least 2 with at least 2 known sibling
due dates, the timing metrics are derived from the gaps between consecutive
due dates: reported variance is the sample variance `v` of the gaps and the
reported max gap their maximum `g`, with overlap `max(0, 1 - v/900)`,
alignment efficiency `max(0, 1 - g/30)`, fragmentation `min(1, g/14)` and
split probability `fragmentation × 0.8`; with fewer than 2 due dates the
fixed fallback (overlap 0.5, variance 30, gap 30, fragmentation 0.5) is
returned. -/
theorem c6_timing_overlap_formulas (snapshot : MetricsSnapshotView)
    (ctx : BundleContext) (h : 2 ≤ ctx.bundle_size) :
    (2 ≤ (dueDatesOf ctx).length →
      (computeTimingOverlapMetrics snapshot ctx).timing_variance_days =
        sampleVariance ((consecutiveGaps (dueDatesOf ctx)).map (fun g => (g : ℚ))) ∧
      (computeTimingOverlapMetrics snapshot ctx).max_timing_gap_days =
        maxOfList (consecutiveGaps (dueDatesOf ctx)) ∧
      (computeTimingOverlapMetrics snapshot ctx).refill_overlap_score =
        max 0 (1 - sampleVariance ((consecutiveGaps (dueDatesOf ctx)).map (fun g => (g : ℚ))) / 900) ∧
      (computeTimingOverlapMetrics snapshot ctx).alignment_efficiency =
        max 0 (1 - (maxOfList (consecutiveGaps (dueDatesOf ctx)) : ℚ) / 30) ∧
      (computeTimingOverlapMetrics snapshot ctx).fragmentation_risk =
        min 1 ((maxOfList (consecutiveGaps (dueDatesOf ctx)) : ℚ) / 14) ∧
      (computeTimingOverlapMetrics snapshot ctx).shipment_split_probability =
        (computeTimingOverlapMetrics snapshot ctx).fragmentation_risk * (8/10)) ∧
    ((dueDatesOf ctx).length < 2 →
      (computeTimingOverlapMetrics snapshot ctx).refill_overlap_score = 1/2 ∧
      (computeTimingOverlapMetrics snapshot ctx).timing_variance_days = 30 ∧
      (computeTimingOverlapMetrics snapshot ctx).max_timing_gap_days = 30 ∧
      (computeTimingOverlapMetrics snapshot ctx).fragmentation_risk = 1/2) := by
  by_cases hdd : (dueDatesOf ctx).length < 2
  · have e : computeTimingOverlapMetrics snapshot ctx =
        { bundle_id := snapshot.bundle_id, bundle_size := ctx.bundle_size
          refill_overlap_score := 1/2, timing_variance_days := 30
          max_timing_gap_days := 30, is_well_aligned := false
          alignment_efficiency := 1/2, fragmentation_risk := 1/2
          shipment_split_probability := 1/2 } := by
      simp only [computeTimingOverlapMetrics]
      rw [if_neg (by omega), if_pos (by simpa [dueDatesOf] using hdd)]
    refine ⟨fun h2 => absurd h2 (by omega), fun _ => ?_⟩
    rw [e]
    exact ⟨rfl, rfl, rfl, rfl⟩
  · push_neg at hdd
    have hgl : 1 ≤ (consecutiveGaps (dueDatesOf ctx)).length := by
      rw [consecutiveGaps_length]; omega
    have hV : (if 1 < (consecutiveGaps (dueDatesOf ctx)).length then
        sampleVariance ((consecutiveGaps (dueDatesOf ctx)).map (fun g => (g : ℚ)))
        else 0) =
        sampleVariance ((consecutiveGaps (dueDatesOf ctx)).map (fun g => (g : ℚ))) := by
      by_cases hg : 1 < (consecutiveGaps (dueDatesOf ctx)).length
      · rw [if_pos hg]
      · rw [if_neg hg]
        have h1 : (consecutiveGaps (dueDatesOf ctx)).length = 1 := by omega
        obtain ⟨x, hx⟩ := List.length_eq_one.mp h1
        rw [hx]
        simp [sampleVariance_singleton]
    have e : computeTimingOverlapMetrics snapshot ctx =
        { bundle_id := snapshot.bundle_id, bundle_size := ctx.bundle_size
          refill_overlap_score :=
            max 0 (1 - (if 1 < (consecutiveGaps (dueDatesOf ctx)).length then
              sampleVariance ((consecutiveGaps (dueDatesOf ctx)).map (fun g => (g : ℚ)))
              else 0) / 900)
          timing_variance_days :=
            (if 1 < (consecutiveGaps (dueDatesOf ctx)).length then
              sampleVariance ((consecutiveGaps (dueDatesOf ctx)).map (fun g => (g : ℚ)))
              else 0)
          max_timing_gap_days := maxOfList (consecutiveGaps (dueDatesOf ctx))
          is_well_aligned :=
            decide ((8:ℚ)/10 < max 0 (1 - (maxOfList (consecutiveGaps (dueDatesOf ctx)) : ℚ) / 30))
          alignment_efficiency := max 0 (1 - (maxOfList (consecutiveGaps (dueDatesOf ctx)) : ℚ) / 30)
          fragmentation_risk := min 1 ((maxOfList (consecutiveGaps (dueDatesOf ctx)) : ℚ) / 14)
          shipment_split_probability :=
            min 1 ((maxOfList (consecutiveGaps (dueDatesOf ctx)) : ℚ) / 14) * (8/10) } := by
      simp only [computeTimingOverlapMetrics, dueDatesOf]
      rw [if_neg (by omega), if_neg (by simp only [dueDatesOf] at hdd; omega)]
    refine ⟨fun _ => ?_, fun hlt => absurd hlt (by omega)⟩
    rw [e, hV]
    exact ⟨rfl, rfl, rfl, rfl, rfl, rfl⟩

/-- Witness for C6 on a three-refill bundle with due dates 0, 10, 30. -/
theorem c6_timing_overlap_formulas_witness :
    (computeTimingOverlapMetrics {} c6Context).fragmentation_risk =
      min 1 ((maxOfList (consecutiveGaps (dueDatesOf c6Context)) : ℚ) / 14) ∧
    (computeTimingOverlapMetrics {} c6Context).refill_overlap_score =
      max 0 (1 - sampleVariance
        ((consecutiveGaps (dueDatesOf c6Context)).map (fun g => (g : ℚ))) / 900) := by
  have hc := (c6_timing_overlap_formulas {} c6Context (by decide)).1 (by decide)
  exact ⟨hc.2.2.2.2.1, hc.2.2.1⟩

/-- The event-folding step never writes the current stage. -/
theorem processEventStep_current_stage (s : RefillSnapshot) (e : CanonicalEvent) :
    (processEventStep s e).current_stage = s.current_stage := by
  unfold processEventStep processRefillEvent processPaEvent processOosEvent processBundleEvent
  cases e.cls <;> cases e.event_type <;> rfl

/-- Folding any event list never writes the current stage, so the stage
entering `_determine_current_state` is the constructor default. -/
theorem foldl_processEventStep_current_stage (l : List CanonicalEvent) :
    ∀ s : RefillSnapshot, (l.foldl processEventStep s).current_stage = s.current_stage := by
  induction l with
  | nil => intro s; rfl
  | cons a t ih => intro s; rw [List.foldl_cons, ih, processEventStep_current_stage]

/-- Case analysis of the stage cascade on a snapshot whose incoming stage is
the `initiated` default. -/
theorem determineStage_cases (x : RefillSnapshot)
    (hx : x.current_stage = .initiated) :
    (x.completed_timestamp.isSome → determineStage x = .completed) ∧
    (x.completed_timestamp = none → x.shipped_timestamp.isSome →
      determineStage x = .shipped) ∧
    (x.completed_timestamp = none → x.shipped_timestamp = none →
      x.oos_detected_timestamp.isSome → x.oos_resolved_timestamp = none →
      determineStage x = .oosDetected) ∧
    (x.completed_timestamp = none → x.shipped_timestamp = none →
      (x.oos_detected_timestamp = none ∨ x.oos_resolved_timestamp.isSome) →
      x.bundled_timestamp.isSome → determineStage x = .bundled) ∧
    (noLateMilestone x → x.pa_resolved_timestamp.isSome →
      x.pa_submitted_timestamp.isSome →
      x.event_ids.any (fun e => hasPaMark e) = true →
      determineStage x = .paApproved) ∧
    (noLateMilestone x → x.pa_resolved_timestamp.isSome →
      x.pa_submitted_timestamp = none → determineStage x = .initiated) ∧
    (noLateMilestone x → x.pa_resolved_timestamp.isSome →
      x.event_ids.any (fun e => hasPaMark e) = false →
      determineStage x = .initiated) ∧
    (noLateMilestone x → x.pa_resolved_timestamp = none →
      x.pa_submitted_timestamp.isSome → determineStage x = .paPending) ∧
    (noLateMilestone x → x.pa_resolved_timestamp = none →
      x.pa_submitted_timestamp = none → x.eligible_timestamp.isSome →
      determineStage x = .eligible) ∧
    (noLateMilestone x → x.pa_resolved_timestamp = none →
      x.pa_submitted_timestamp = none → x.eligible_timestamp = none →
      determineStage x = .initiated) := by
  unfold determineStage
  refine ⟨fun h1 => ?_, fun h1 h2 => ?_, fun h1 h2 h3 h4 => ?_,
    fun h1 h2 h3 h4 => ?_, fun hnl h1 h2 h3 => ?_, fun hnl h1 h2 => ?_,
    fun hnl h1 h2 => ?_, fun hnl h1 h2 => ?_, fun hnl h1 h2 h3 => ?_,
    fun hnl h1 h2 h3 => ?_⟩
  · rw [if_pos h1]
  · rw [if_neg (by simp [h1]), if_pos h2]
  · rw [if_neg (by simp [h1]), if_neg (by simp [h2]), if_pos (by simp [h3, h4])]
  · rw [if_neg (by simp [h1]), if_neg (by simp [h2]), if_neg ?hoos4, if_pos h4]
    case hoos4 =>
      rcases h3 with hd | hr
      · simp [hd]
      · obtain ⟨v, hv⟩ := Option.isSome_iff_exists.mp hr
        simp [hv]
  · obtain ⟨hc, hsh, ho, hb⟩ := hnl
    have hfil : x.event_ids.filter (fun e => hasPaMark e) ≠ [] := by
      obtain ⟨y, hy, hpy⟩ := List.any_eq_true.mp h3
      intro hnil
      have := List.filter_eq_nil.mp hnil y hy
      simp [hpy] at this
    rw [if_neg (by simp [hc]), if_neg (by simp [hsh]), if_neg ?hoos5,
      if_neg (by simp [hb]), if_pos h1, if_pos (by simp [h1, h2]), if_pos hfil]
    case hoos5 =>
      rcases ho with hd | hr
      · simp [hd]
      · obtain ⟨v, hv⟩ := Option.isSome_iff_exists.mp hr
        simp [hv]
  · obtain ⟨hc, hsh, ho, hb⟩ := hnl
    rw [if_neg (by simp [hc]), if_neg (by simp [hsh]), if_neg ?hoos6,
      if_neg (by simp [hb]), if_pos h1, if_neg (by simp [h2])]
    case hoos6 =>
      rcases ho with hd | hr
      · simp [hd]
      · obtain ⟨v, hv⟩ := Option.isSome_iff_exists.mp hr
        simp [hv]
    exact hx
  · obtain ⟨hc, hsh, ho, hb⟩ := hnl
    have hfil : x.event_ids.filter (fun e => hasPaMark e) = [] := by
      rw [List.filter_eq_nil]
      intro y hy
      have := List.any_eq_false.mp h2 y hy
      simp [this]
    rw [if_neg (by simp [hc]), if_neg (by simp [hsh]), if_neg ?hoos7,
      if_neg (by simp [hb]), if_pos h1]
    case hoos7 =>
      rcases ho with hd | hr
      · simp [hd]
      · obtain ⟨v, hv⟩ := Option.isSome_iff_exists.mp hr
        simp [hv]
    by_cases hsub : x.pa_submitted_timestamp.isSome
    · rw [if_pos (by simp [h1, hsub]), if_neg (not_ne_iff.mpr hfil)]
      exact hx
    · rw [if_neg (by simp [hsub])]
      exact hx
  · obtain ⟨hc, hsh, ho, hb⟩ := hnl
    rw [if_neg (by simp [hc]), if_neg (by simp [hsh]), if_neg ?hoos8,
      if_neg (by simp [hb]), if_neg (by simp [h1]), if_pos h2]
    case hoos8 =>
      rcases ho with hd | hr
      · simp [hd]
      · obtain ⟨v, hv⟩ := Option.isSome_iff_exists.mp hr
        simp [hv]
  · obtain ⟨hc, hsh, ho, hb⟩ := hnl
    rw [if_neg (by simp [hc]), if_neg (by simp [hsh]), if_neg ?hoos9,
      if_neg (by simp [hb]), if_neg (by simp [h1]), if_neg (by simp [h2]),
      if_pos h3]
    case hoos9 =>
      rcases ho with hd | hr
      · simp [hd]
      · obtain ⟨v, hv⟩ := Option.isSome_iff_exists.mp hr
        simp [hv]
  · obtain ⟨hc, hsh, ho, hb⟩ := hnl
    rw [if_neg (by simp [hc]), if_neg (by simp [hsh]), if_neg ?hoos10,
      if_neg (by simp [hb]), if_neg (by simp [h1]), if_neg (by simp [h2]),
      if_neg (by simp [h3])]
    case hoos10 =>
      rcases ho with hd | hr
      · simp [hd]
      · obtain ⟨v, hv⟩ := Option.isSome_iff_exists.mp hr
        simp [hv]
    by_cases hi : x.initiated_timestamp.isSome
    · rw [if_pos hi]
    · rw [if_neg hi]
      exact hx

/-- Claim C3 (amended): the stage cascade is Completed, then Shipped, then
OosDetected-without-resolution, then Bundled; then, when a PA-resolved
milestone exists, the stage becomes PaApproved only when a PA-submitted
milestone also exists and some contributing event identifier contains the
substring "pa_" case-insensitively — otherwise the stage is left at the
Initiated default and the later branches are skipped; then PaPending, then
Eligible, then Initiated. -/
theorem c3_stage_cascade (events : List CanonicalEvent) (s : RefillSnapshot)
    (h : aggregateEventsToSnapshot events = .ok s) :
    (s.completed_timestamp.isSome → s.current_stage = .completed) ∧
    (s.completed_timestamp = none → s.shipped_timestamp.isSome →
      s.current_stage = .shipped) ∧
    (s.completed_timestamp = none → s.shipped_timestamp = none →
      s.oos_detected_timestamp.isSome → s.oos_resolved_timestamp = none →
      s.current_stage = .oosDetected) ∧
    (s.completed_timestamp = none → s.shipped_timestamp = none →
      (s.oos_detected_timestamp = none ∨ s.oos_resolved_timestamp.isSome) →
      s.bundled_timestamp.isSome → s.current_stage = .bundled) ∧
    (noLateMilestone s → s.pa_resolved_timestamp.isSome →
      s.pa_submitted_timestamp.isSome →
      s.event_ids.any (fun e => hasPaMark e) = true →
      s.current_stage = .paApproved) ∧
    (noLateMilestone s → s.pa_resolved_timestamp.isSome →
      s.pa_submitted_timestamp = none → s.current_stage = .initiated) ∧
    (noLateMilestone s → s.pa_resolved_timestamp.isSome →
      s.event_ids.any (fun e => hasPaMark e) = false →
      s.current_stage = .initiated) ∧
    (noLateMilestone s → s.pa_resolved_timestamp = none →
      s.pa_submitted_timestamp.isSome → s.current_stage = .paPending) ∧
    (noLateMilestone s → s.pa_resolved_timestamp = none →
      s.pa_submitted_timestamp = none → s.eligible_timestamp.isSome →
      s.current_stage = .eligible) ∧
    (noLateMilestone s → s.pa_resolved_timestamp = none →
      s.pa_submitted_timestamp = none → s.eligible_timestamp = none →
      s.current_stage = .initiated) := by
  unfold aggregateEventsToSnapshot at h
  cases hs : sortEvents events with
  | nil => rw [hs] at h; simp [aggregateSorted] at h
  | cons a t =>
    rw [hs] at h
    simp only [aggregateSorted, Except.ok.injEq] at h
    subst h
    simp only [determineCurrentState]
    exact determineStage_cases _ (foldl_processEventStep_current_stage _ _)

/-- Witness for C3: aggregating a single refill-initiated event reaches the
final Initiated branch of the cascade. -/
theorem c3_stage_cascade_witness :
    c3InitiatedSnapshot.current_stage = SnapshotStage.initiated := by
  have hagg : aggregateEventsToSnapshot [c3InitiatedEvent] =
      .ok c3InitiatedSnapshot := by rfl
  have hc := c3_stage_cascade [c3InitiatedEvent] c3InitiatedSnapshot hagg
  exact hc.2.2.2.2.2.2.2.2.2 (by decide) (by decide) (by decide) (by decide)

/-- Counterexample to C3 as stated: the event set {refill-eligible,
PA-approved} has an eligible milestone and a PA-resolved milestone and no
later milestone, yet it aggregates to stage Initiated (the untouched
default), not PaApproved — the PA branch swallows the remaining cascade
without assigning a stage because no PA-submitted milestone exists. -/
theorem c3_paapproved_counterexample :
    (aggregateEventsToSnapshot [c3EligibleEvent, c3PaApprovedEvent]).toOption.map
      (fun s => (s.current_stage, s.eligible_timestamp.isSome,
        s.pa_resolved_timestamp.isSome, s.bundled_timestamp.isSome,
        s.shipped_timestamp.isSome, s.completed_timestamp.isSome,
        s.oos_detected_timestamp.isSome)) =
      some (.initiated, true, true, false, false, false, false) ∧
    SnapshotStage.initiated ≠ SnapshotStage.paApproved := by
  exact ⟨by rfl, by decide⟩

/-- Two lists of events that are permutations of each other with pairwise
distinct timestamps sort to the same list. -/
theorem sortEvents_eq_of_perm (l1 l2 : List CanonicalEvent)
    (hperm : l1.Perm l2)
    (hnd : (l1.map (fun e => e.event_timestamp)).Nodup) :
    sortEvents l1 = sortEvents l2 := by
  haveI : IsTotal CanonicalEvent eventLe :=
    ⟨fun a b => le_total a.event_timestamp b.event_timestamp⟩
  haveI : IsTrans CanonicalEvent eventLe :=
    ⟨fun a b c hab hbc => le_trans hab hbc⟩
  haveI : IsAntisymm CanonicalEvent eventLt :=
    ⟨fun a b h1 h2 => absurd (lt_trans h1 h2) (lt_irrefl _)⟩
  have hp : (sortEvents l1).Perm (sortEvents l2) :=
    (List.perm_insertionSort eventLe l1).trans
      (hperm.trans (List.perm_insertionSort eventLe l2).symm)
  have hnd1 : ((sortEvents l1).map (fun e => e.event_timestamp)).Nodup :=
    (((List.perm_insertionSort eventLe l1).map (fun e => e.event_timestamp)).nodup_iff).mpr hnd
  have hnd2 : ((sortEvents l2).map (fun e => e.event_timestamp)).Nodup := by
    refine (((List.perm_insertionSort eventLe l2).map
      (fun e => e.event_timestamp)).nodup_iff).mpr ?_
    exact ((hperm.map (fun e => e.event_timestamp)).nodup_iff).mp hnd
  have strict : ∀ (l : List CanonicalEvent),
      l.Sorted eventLe → ((l.map (fun e => e.event_timestamp)).Nodup) →
      l.Pairwise eventLt := by
    intro l hsort hnodup
    have hne : l.Pairwise (fun a b => a.event_timestamp ≠ b.event_timestamp) :=
      (List.pairwise_map).mp hnodup
    exact (hsort.and hne).imp (fun h => lt_of_le_of_ne h.1 h.2)
  exact List.eq_of_perm_of_sorted hp
    (strict _ (List.sorted_insertionSort eventLe l1) hnd1)
    (strict _ (List.sorted_insertionSort eventLe l2) hnd2)

/-- Claim C8: aggregating the same unordered event set (any two
permutations of it, with distinct timestamps) yields the same current
stage, PA state, bundle timing state and all per-category event counters;
moreover the event sort is stable: a list already in nondecreasing
timestamp order — in particular any list of tied timestamps — is left in
input order. -/
theorem c8_aggregate_deterministic (l1 l2 : List CanonicalEvent)
    (hperm : l1.Perm l2)
    (hnd : (l1.map (fun e => e.event_timestamp)).Nodup) :
    ((aggregateEventsToSnapshot l1).map (fun s =>
        (s.current_stage, s.pa_state, s.bundle_timing_state,
          s.refill_events, s.pa_events, s.oos_events, s.bundle_events)) =
      (aggregateEventsToSnapshot l2).map (fun s =>
        (s.current_stage, s.pa_state, s.bundle_timing_state,
          s.refill_events, s.pa_events, s.oos_events, s.bundle_events))) ∧
    (∀ l : List CanonicalEvent, l.Pairwise eventLe → sortEvents l = l) := by
  constructor
  · unfold aggregateEventsToSnapshot
    rw [sortEvents_eq_of_perm l1 l2 hperm hnd]
  · intro l hl
    exact List.Sorted.insertionSort_eq hl

/-- Witness for C8 on a two-event set presented in both orders. -/
theorem c8_aggregate_deterministic_witness :
    (aggregateEventsToSnapshot [c8EventA, c8EventB]).map (fun s =>
        (s.current_stage, s.pa_state, s.bundle_timing_state,
          s.refill_events, s.pa_events, s.oos_events, s.bundle_events)) =
      (aggregateEventsToSnapshot [c8EventB, c8EventA]).map (fun s =>
        (s.current_stage, s.pa_state, s.bundle_timing_state,
          s.refill_events, s.pa_events, s.oos_events, s.bundle_events)) :=
  (c8_aggregate_deterministic [c8EventA, c8EventB] [c8EventB, c8EventA]
    (by decide) (by decide)).1

/-- Claim C4 (amended): update returns None both for an unknown snapshot
identifier and for a member/refill mismatch (the two outcomes are not
distinct in the returned value); on a match it appends the event identifier
and re-aggregates over the events returned by the placeholder event store,
which is always the empty list, so the call fails with the empty-event-set
error instead of returning an updated snapshot. -/
theorem c4_update_behavior (st : EngineState) (snapshot_id : String)
    (e : CanonicalEvent) :
    (st.cache.lookup snapshot_id = none →
      updateSnapshotWithEvent st snapshot_id e = .ok (none, st)) ∧
    (∀ s, st.cache.lookup snapshot_id = some s →
      (e.member_id ≠ s.member_id ∨ e.refill_id ≠ s.refill_id) →
      updateSnapshotWithEvent st snapshot_id e = .ok (none, st)) ∧
    (∀ s, st.cache.lookup snapshot_id = some s →
      e.member_id = s.member_id → e.refill_id = s.refill_id →
      updateSnapshotWithEvent st snapshot_id e =
        .error "Cannot create snapshot from empty event list") := by
  refine ⟨fun h => ?_, fun s hs hne => ?_, fun s hs hm hr => ?_⟩
  · unfold updateSnapshotWithEvent
    rw [h]
  · unfold updateSnapshotWithEvent
    rw [hs]
    simp only [if_pos hne]
  · unfold updateSnapshotWithEvent
    rw [hs]
    simp only [if_neg (by push_neg; exact ⟨hm, hr⟩ :
      ¬(e.member_id ≠ s.member_id ∨ e.refill_id ≠ s.refill_id))]
    rfl

/-- Counterexample to C4 as stated: the "not found" and "mismatch" outcomes
are the same returned value (None), so the mismatch signal is not distinct,
and a matching update raises the empty-event-set error instead of returning
the re-aggregated snapshot. -/
theorem c4_update_counterexample :
    updateSnapshotWithEvent c4State "missing0000" c4MatchEvent =
      updateSnapshotWithEvent c4State "snapshot0001" c4MismatchEvent ∧
    updateSnapshotWithEvent c4State "snapshot0001" c4MismatchEvent =
      .ok (none, c4State) ∧
    updateSnapshotWithEvent c4State "snapshot0001" c4MatchEvent =
      .error "Cannot create snapshot from empty event list" :=
  ⟨by rfl, by rfl, by rfl⟩

/-- Counting over a flatMap is the sum of the per-element counts. -/
theorem countP_flatMap {α β : Type} (p : β → Bool) (f : α → List β) :
    ∀ l : List α, (l.flatMap f).countP p = (l.map fun a => (f a).countP p).sum := by
  intro l
  induction l with
  | nil => rfl
  | cons a t ih => simp [List.flatMap_cons, List.countP_append, ih]

/-- With pairwise-distinct refill identifiers, counting the metrics whose
identifier matches a member of the list reduces to testing that member. -/
theorem countP_refillId_unique (q : MetricKey → Bool) :
    ∀ (ms : List MetricKey), ((ms.map (fun m => m.refill_id)).Nodup) →
      ∀ m ∈ ms,
      ms.countP (fun x => (x.refill_id == m.refill_id) && q x) =
        if q m then 1 else 0 := by
  intro ms
  induction ms with
  | nil => intro _ m hm; cases hm
  | cons a t ih =>
    intro hnd m hm
    rw [List.map_cons, List.nodup_cons] at hnd
    obtain ⟨ha, ht⟩ := hnd
    rcases List.mem_cons.mp hm with rfl | hmt
    · rw [List.countP_cons]
      have h0 : t.countP (fun x => (x.refill_id == m.refill_id) && q x) = 0 := by
        rw [List.countP_eq_zero]
        intro x hx hq
        rw [Bool.and_eq_true, beq_iff_eq] at hq
        exact ha (hq.1 ▸ List.mem_map_of_mem (fun y => y.refill_id) hx)
      rw [h0]
      by_cases hq : q m
      · simp [hq]
      · simp [hq]
    · have hne : a.refill_id ≠ m.refill_id := by
        intro hEq
        exact ha (hEq ▸ List.mem_map_of_mem (fun y => y.refill_id) hmt)
      rw [List.countP_cons, ih ht m hmt]
      simp [hne]

/-- Membership after a defaultdict-style key insertion. -/
theorem mem_insertKey (ks : List String) (k x : String) :
    x ∈ insertKey ks k ↔ x ∈ ks ∨ x = k := by
  unfold insertKey
  by_cases hk : k ∈ ks
  · rw [if_pos hk]
    constructor
    · exact Or.inl
    · rintro (hx | rfl)
      · exact hx
      · exact hk
  · rw [if_neg hk]
    simp

/-- Key insertion keeps the key list duplicate-free. -/
theorem insertKey_nodup (ks : List String) (k : String) (h : ks.Nodup) :
    (insertKey ks k).Nodup := by
  unfold insertKey
  by_cases hk : k ∈ ks
  · rw [if_pos hk]; exact h
  · rw [if_neg hk]
    simp [List.nodup_append, h, hk]

/-- Characterization of the keys accumulated by the grouping fold. -/
theorem bundleKeysAux_mem (ms : List MetricKey) :
    ∀ (acc : List String) (b : String),
      (b ∈ ms.foldl (fun ks m =>
        match truthyBundle m with
        | some v => insertKey ks v
        | none => ks) acc ↔ (b ∈ acc ∨ ∃ m ∈ ms, truthyBundle m = some b)) := by
  induction ms with
  | nil => intro acc b; simp
  | cons a t ih =>
    intro acc b
    rw [List.foldl_cons]
    cases hta : truthyBundle a with
    | none =>
      rw [ih]
      simp [hta]
    | some v =>
      rw [ih]
      constructor
      · rintro (h | h)
        · rcases (mem_insertKey acc v b).mp h with hx | rfl
          · exact Or.inl hx
          · exact Or.inr ⟨a, List.mem_cons_self a t, hta⟩
        · obtain ⟨m, hm, hmb⟩ := h
          exact Or.inr ⟨m, List.mem_cons_of_mem a hm, hmb⟩
      · rintro (h | ⟨m, hm, hmb⟩)
        · exact Or.inl ((mem_insertKey acc v b).mpr (Or.inl h))
        · rcases List.mem_cons.mp hm with rfl | hm
          · rw [hta] at hmb
            injection hmb with hv
            exact Or.inl ((mem_insertKey acc v b).mpr (Or.inr hv.symm))
          · exact Or.inr ⟨m, hm, hmb⟩

/-- A bundle identifier is a group key exactly when some metric carries it. -/
theorem mem_bundleKeys (ms : List MetricKey) (b : String) :
    b ∈ bundleKeys ms ↔ ∃ m ∈ ms, truthyBundle m = some b := by
  unfold bundleKeys
  rw [bundleKeysAux_mem ms [] b]
  simp

/-- The group keys are duplicate-free (one group per bundle identifier). -/
theorem bundleKeys_nodup (ms : List MetricKey) : (bundleKeys ms).Nodup := by
  unfold bundleKeys
  have h : ∀ (l : List MetricKey) (acc : List String), acc.Nodup →
      (l.foldl (fun ks m =>
        match truthyBundle m with
        | some v => insertKey ks v
        | none => ks) acc).Nodup := by
    intro l
    induction l with
    | nil => intro acc h; exact h
    | cons a t ih =>
      intro acc hacc
      rw [List.foldl_cons]
      cases hta : truthyBundle a with
      | none => exact ih acc hacc
      | some v => exact ih _ (insertKey_nodup acc v hacc)
  exact h ms [] List.nodup_nil

/-- The sum over a duplicate-free key list with a single nonzero entry. -/
theorem sum_map_eq_single (g : String → ℕ) (b : String) :
    ∀ (ks : List String), ks.Nodup → b ∈ ks →
      (∀ x ∈ ks, x ≠ b → g x = 0) → (ks.map g).sum = g b := by
  intro ks
  induction ks with
  | nil => intro _ hb; cases hb
  | cons k t ih =>
    intro hnd hb hz
    rw [List.nodup_cons] at hnd
    rcases List.mem_cons.mp hb with rfl | hbt
    · rw [List.map_cons, List.sum_cons]
      have h0 : (t.map g).sum = 0 := by
        apply List.sum_eq_zero
        intro x hx
        obtain ⟨y, hy, rfl⟩ := List.mem_map.mp hx
        exact hz y (List.mem_cons_of_mem _ hy) (fun hEq => hnd.1 (hEq ▸ hy))
      rw [h0]
      omega
    · rw [List.map_cons, List.sum_cons,
        ih hnd.2 hbt (fun x hx => hz x (List.mem_cons_of_mem _ hx)),
        hz k (List.mem_cons_self k t) (fun hEq => hnd.1 (hEq ▸ hbt))]
      omega

/-- Decomposition of any count over the batch output: the ungrouped pass
plus the per-group pass. -/
theorem countP_assessBatch (ms : List MetricKey) (p : RiskAssessmentKind → Bool) :
    (assessBatchRisks ms).countP p =
      (ms.filter (fun m => (truthyBundle m).isNone)).countP
        (fun m => p (.abandonment m.refill_id))
      + ((bundleKeys ms).map (fun b =>
          if 1 < (bundleGroup ms b).length then
            (if p (.bundleBreak b
                (((bundleGroup ms b).head?.map (fun m => m.refill_id)).getD "")) then 1 else 0)
            + (bundleGroup ms b).countP (fun m => p (.abandonment m.refill_id))
          else 0)).sum := by
  unfold assessBatchRisks
  rw [List.countP_append, List.countP_map, countP_flatMap]
  congr 1
  refine congrArg List.sum (List.map_congr_left ?_)
  intro b _
  by_cases hlen : 1 < (bundleGroup ms b).length
  · rw [if_pos hlen, if_pos hlen, List.countP_cons, List.countP_map]
    exact Nat.add_comm _ _
  · rw [if_neg hlen, if_neg hlen]
    rfl

/-- Claim C10: in batch assessment a metric with a bundle identifier whose
group holds exactly one metric receives no assessment at all (neither an
abandonment assessment nor a bundle-break assessment for its bundle); a
metric without a bundle identifier receives exactly one abandonment
assessment; a group of at least two metrics receives one bundle-break
assessment plus one abandonment assessment per member. -/
theorem c10_batch_assessment_coverage (ms : List MetricKey)
    (hnd : (ms.map (fun m => m.refill_id)).Nodup)
    (m : MetricKey) (hm : m ∈ ms) :
    (truthyBundle m = none →
      (assessBatchRisks ms).countP (isAbandonmentFor m.refill_id) = 1) ∧
    (∀ b, truthyBundle m = some b →
      ((bundleGroup ms b).length = 1 →
        (assessBatchRisks ms).countP (isAbandonmentFor m.refill_id) = 0 ∧
        (assessBatchRisks ms).countP (isBreakFor b) = 0) ∧
      (2 ≤ (bundleGroup ms b).length →
        (assessBatchRisks ms).countP (isAbandonmentFor m.refill_id) = 1 ∧
        (assessBatchRisks ms).countP (isBreakFor b) = 1)) := by
  have hGroup : ∀ b' : String,
      (bundleGroup ms b').countP
        (fun x => isAbandonmentFor m.refill_id (.abandonment x.refill_id)) =
      if decide (truthyBundle m = some b') then 1 else 0 := by
    intro b'
    unfold bundleGroup
    rw [List.countP_filter]
    simp only [isAbandonmentFor]
    exact countP_refillId_unique (fun x => decide (truthyBundle x = some b')) ms hnd m hm
  have hFree : (ms.filter (fun x => (truthyBundle x).isNone)).countP
      (fun x => isAbandonmentFor m.refill_id (.abandonment x.refill_id)) =
      if (truthyBundle m).isNone then 1 else 0 := by
    rw [List.countP_filter]
    simp only [isAbandonmentFor]
    exact countP_refillId_unique (fun x => (truthyBundle x).isNone) ms hnd m hm
  have hAb : (assessBatchRisks ms).countP (isAbandonmentFor m.refill_id) =
      (if (truthyBundle m).isNone then 1 else 0)
      + ((bundleKeys ms).map (fun b' =>
          if 1 < (bundleGroup ms b').length then
            (if decide (truthyBundle m = some b') then 1 else 0)
          else 0)).sum := by
    rw [countP_assessBatch, hFree]
    congr 1
    refine congrArg List.sum (List.map_congr_left ?_)
    intro b' _
    by_cases hlen : 1 < (bundleGroup ms b').length
    · rw [if_pos hlen, if_pos hlen, hGroup b']
      simp [isAbandonmentFor]
    · rw [if_neg hlen, if_neg hlen]
  have hBr : ∀ b : String, (assessBatchRisks ms).countP (isBreakFor b) =
      ((bundleKeys ms).map (fun b' =>
          if 1 < (bundleGroup ms b').length then
            (if b' == b then 1 else 0)
          else 0)).sum := by
    intro b
    rw [countP_assessBatch]
    have h0 : (ms.filter (fun x => (truthyBundle x).isNone)).countP
        (fun x => isBreakFor b (.abandonment x.refill_id)) = 0 := by
      simp [isBreakFor]
    rw [h0]
    rw [Nat.zero_add]
    refine congrArg List.sum (List.map_congr_left ?_)
    intro b' _
    by_cases hlen : 1 < (bundleGroup ms b').length
    · rw [if_pos hlen, if_pos hlen]
      have hz : (bundleGroup ms b').countP
          (fun x => isBreakFor b (.abandonment x.refill_id)) = 0 := by
        simp [isBreakFor]
      rw [hz]
      simp [isBreakFor]
    · rw [if_neg hlen, if_neg hlen]
  refine ⟨fun hfree => ?_, fun b htm => ⟨fun hone => ⟨?_, ?_⟩, fun htwo => ⟨?_, ?_⟩⟩⟩
  · rw [hAb, hfree]
    have hz : ((bundleKeys ms).map (fun b' =>
        if 1 < (bundleGroup ms b').length then
          (if decide ((none : Option String) = some b') then 1 else 0)
        else 0)).sum = 0 := by
      apply List.sum_eq_zero
      intro x hx
      obtain ⟨b', _, rfl⟩ := List.mem_map.mp hx
      simp
    rw [hz]
    simp
  · rw [hAb, htm]
    have hz : ((bundleKeys ms).map (fun b' =>
        if 1 < (bundleGroup ms b').length then
          (if decide ((some b : Option String) = some b') then 1 else 0)
        else 0)).sum = 0 := by
      apply List.sum_eq_zero
      intro x hx
      obtain ⟨b', _, rfl⟩ := List.mem_map.mp hx
      by_cases hbb : b' = b
      · subst hbb
        rw [if_neg (by omega)]
      · simp [Ne.symm hbb]
    rw [hz]
    simp
  · rw [hBr b]
    apply List.sum_eq_zero
    intro x hx
    obtain ⟨b', _, rfl⟩ := List.mem_map.mp hx
    by_cases hbb : b' = b
    · subst hbb
      rw [if_neg (by omega)]
    · simp [hbb]
  · rw [hAb, htm]
    have hs : ((bundleKeys ms).map (fun b' =>
        if 1 < (bundleGroup ms b').length then
          (if decide ((some b : Option String) = some b') then 1 else 0)
        else 0)).sum = 1 := by
      rw [sum_map_eq_single _ b (bundleKeys ms) (bundleKeys_nodup ms)
        ((mem_bundleKeys ms b).mpr ⟨m, hm, htm⟩) ?_]
      · rw [if_pos (by omega)]
        simp
      · intro x hx hxb
        simp [Ne.symm hxb]
    rw [hs]
    simp
  · rw [hBr b]
    rw [sum_map_eq_single _ b (bundleKeys ms) (bundleKeys_nodup ms)
      ((mem_bundleKeys ms b).mpr ⟨m, hm, htm⟩) ?_]
    · rw [if_pos (by omega)]
      simp
    · intro x hx hxb
      simp [hxb]

/-- Witness for C10 on a batch with one unbundled metric, a two-member
bundle and a singleton bundle: the singleton-bundle metric receives no
assessment at all. -/
theorem c10_batch_assessment_coverage_witness :
    (assessBatchRisks c10Metrics).countP (isAbandonmentFor "REFILL04") = 0 ∧
    (assessBatchRisks c10Metrics).countP (isBreakFor "BUNDLE02") = 0 ∧
    (assessBatchRisks c10Metrics).countP (isAbandonmentFor "REFILL01") = 1 ∧
    (assessBatchRisks c10Metrics).countP (isAbandonmentFor "REFILL02") = 1 ∧
    (assessBatchRisks c10Metrics).countP (isBreakFor "BUNDLE01") = 1 := by
  have h4 := ((c10_batch_assessment_coverage c10Metrics (by decide)
    { refill_id := "REFILL04", bundle_id := some "BUNDLE02" } (by decide)).2
    "BUNDLE02" (by decide)).1 (by decide)
  have h1 := (c10_batch_assessment_coverage c10Metrics (by decide)
    { refill_id := "REFILL01" } (by decide)).1 (by decide)
  have h2 := ((c10_batch_assessment_coverage c10Metrics (by decide)
    { refill_id := "REFILL02", bundle_id := some "BUNDLE01" } (by decide)).2
    "BUNDLE01" (by decide)).2 (by decide)
  exact ⟨h4.1, h4.2, h1, h2.1, h2.2⟩

end RxFlow
